import Mathlib

/-!
Shallow embedding of the iterative generate-evaluate-refine loop of
`version1.py` (functions `evaluate_content`, `get_feedback`,
`generate_high_quality_content`, and the result unpacking in `main`).

The LLM backend (`writer`, `seo_reviewer`, `ethics_reviewer` agents) is an
external oracle; it is modelled as a function from the global index of the
call within one run and the user prompt to the reply text.  Scores are
modelled with rationals.  The Streamlit UI calls (`st.write`, `st.warning`,
...) have no effect on the loop's state or result and are dropped.
-/

namespace ContentGen

/-- Oracle model of the LLM backend: the reply text, as a function of the
index of the call in the run (calls are numbered in issue order) and the
user prompt.  `version1.py` gives no determinism guarantee between calls. -/
abbrev Oracle := Nat → String → String

/-- Numeric value of a list of decimal digit characters. -/
def digitsVal (l : List Char) : Nat :=
  l.foldl (fun n c => 10 * n + (c.toNat - 48)) 0

/-- Model of Python `float(s)` on the fragment the code can meet: an
optional sign, then decimal digits with at most one decimal point.
`none` models `ValueError`. -/
def pyFloat (s : String) : Option ℚ :=
  let signRest : ℚ × List Char :=
    match s.data with
    | '-' :: t => (-1, t)
    | '+' :: t => (1, t)
    | cs => (1, cs)
  let ip := signRest.2.takeWhile Char.isDigit
  let r2 := signRest.2.dropWhile Char.isDigit
  match r2 with
  | [] => if ip = [] then none else some (signRest.1 * digitsVal ip)
  | '.' :: t =>
      let fp := t.takeWhile Char.isDigit
      let r3 := t.dropWhile Char.isDigit
      if r3 = [] ∧ (ip ≠ [] ∨ fp ≠ []) then
        some (signRest.1 * ((digitsVal ip : ℚ) + (digitsVal fp : ℚ) / (10 : ℚ) ^ fp.length))
      else none
  | _ => none

/-- The rating prompt built in `evaluate_content` (`version1.py` line 68). -/
def eval_prompt (aspect content : String) : String :=
  "Evaluate the " ++ aspect ++
    " of the following content on a scale of 0 to 100. Return only the number:\n\n" ++ content

/-- Embedding of `evaluate_content` (`version1.py` lines 67-74): one oracle
call; `float(score.strip())`, with 50.0 substituted when parsing raises
`ValueError`.  Returns the value and the advanced call counter. -/
def evaluate_content (O : Oracle) (k : Nat) (content aspect : String) : ℚ × Nat :=
  let score := O k (eval_prompt aspect content)
  match pyFloat score.trim with
  | some v => (v, k + 1)
  | none => (50, k + 1)

/-- Decimal rendering of a score in the report; exact for whole numbers,
which is all any claim inspects.  Python prints non-integral floats with
more digits, but no claim depends on those digits. -/
def ratStr (q : ℚ) : String :=
  if q.den = 1 then toString q.num ++ ".0"
  else toString q.num ++ "/" ++ toString q.den

/-- The SEO critique prompt (`version1.py` line 82). -/
def seo_prompt (content : String) : String :=
  "Give SEO feedback in 1-2 sentences:\n\n" ++ content

/-- The Ethics critique prompt (`version1.py` line 85). -/
def ethics_prompt (content : String) : String :=
  "Give Ethics feedback in 1-2 sentences:\n\n" ++ content

/-- The aggregated report of `get_feedback` (`version1.py` lines 87-102):
the f-string `evaluation_table`, flattened, with the interpolated scores
and the two critique texts. -/
def evaluation_table (relevance_score engagement_score ethics_score overall_score : ℚ)
    (seo_feedback ethics_feedback : String) : String :=
  "\n    **Evaluation Scores:**\n\n    | Evaluation Criteria        | Score  | Explanation                                   |\n    |-------------------------|--------|-------------|  \n    | **Relevance to Topic**   | " ++
    ratStr relevance_score ++
    "%  | Alignment with the given topic or prompt. |  \n    | **Clarity & Engagement** | " ++
    ratStr engagement_score ++
    "%  | Audience engagement and clarity. |  \n    | **Ethical Considerations** | " ++
    ratStr ethics_score ++
    "%  | Compliance with fairness and transparency. |  \n    | **Overall Content Quality** | " ++
    ratStr overall_score ++
    "%  | Composite assessment of structure and effectiveness. |\n\n    **SEO Recommendations:**\n    " ++
    seo_feedback ++
    "\n\n    **Ethical Review Comments:**\n    " ++
    ethics_feedback ++ "\n    "

/-- Embedding of `get_feedback` (`version1.py` lines 76-103): re-evaluates
the three dimensions, computes the overall mean, gets the two critiques,
and builds the aggregated report.  Returns the report and the advanced call
counter (5 oracle calls). -/
def get_feedback (O : Oracle) (k : Nat) (content : String) : String × Nat :=
  let r := evaluate_content O k content "relevance to topic"
  let e := evaluate_content O r.2 content "clarity and engagement"
  let t := evaluate_content O e.2 content "ethical integrity"
  let overall_score := (r.1 + e.1 + t.1) / 3
  let seo_feedback := O t.2 (seo_prompt content)
  let ethics_feedback := O (t.2 + 1) (ethics_prompt content)
  (evaluation_table r.1 e.1 t.1 overall_score seo_feedback ethics_feedback, t.2 + 2)

/-- One recorded attempt of the loop: the generated content, the three
dimension scores and their mean computed at `version1.py` lines 141-144, and
the feedback text attached at lines 146-149. -/
structure Attempt where
  content : String
  relevance_score : ℚ
  engagement_score : ℚ
  ethics_score : ℚ
  overall_score : ℚ
  feedback : String
  deriving DecidableEq, Inhabited

/-- A Python value appearing in a returned tuple of
`generate_high_quality_content`: a string or a number. -/
inductive PyVal where
  | s (v : String)
  | n (v : ℚ)
  deriving DecidableEq

/-- The mutable locals of `generate_high_quality_content` at the head of the
`while` loop, plus the oracle call counter.  Python's `feedback` is unset
until the first full iteration; it is modelled as `""`, which is provably
never read while `attempt = 0`. -/
structure LoopState where
  attempt : Nat
  history : List Attempt
  best_content : String
  best_score : ℚ
  content : String
  feedback : String
  calls : Nat
  deriving DecidableEq

/-- The `past_attempts` list of `version1.py`: the recorded contents. -/
def past_attempts (s : LoopState) : List String :=
  s.history.map Attempt.content

/-- Which exit of `generate_high_quality_content` fired: the `break` at line
164 (quality threshold met), the `while` guard at line 112 going false
(budget exhausted), or the early `return "", "", 0` at line 136 (generation
yielded no content). -/
inductive StopReason where
  | quality_met
  | budget_exhausted
  | failed
  deriving DecidableEq

/-- Result of running the loop with a given amount of fuel: either a
`return` was reached (with the returned tuple, the final state and the exit
that fired), or the fuel ran out with the loop still going. -/
inductive LoopOutcome where
  | returned (ret : List PyVal) (final : LoopState) (reason : StopReason)
  | out_of_fuel (s : LoopState)
  deriving DecidableEq

/-- The best-so-far update of `version1.py` lines 160-162. -/
def best_update (b : String × ℚ) (a : Attempt) : String × ℚ :=
  if a.overall_score > b.2 then (a.content, a.overall_score) else b

/-- `max_attempts = 3` (`version1.py` line 111). -/
def max_attempts : Nat := 3

/-- The fixed feedback marker attached from the third attempt on
(`version1.py` line 149). -/
def final_marker : String := "Final version: No further feedback required."

/-- The attempt-0 generation prompt (`version1.py` line 130). -/
def initial_prompt (topic : String) : String :=
  "Write a detailed and engaging blog post about: " ++ topic

/-- The refinement prompt for attempts `> 0` (`version1.py` lines 115-126),
embedding the previous content and feedback verbatim. -/
def refinement_prompt (topic content feedback : String) : String :=
  "\n            Improve the following content by addressing these key points:\n            - Increase relevance to \"" ++
    topic ++
    "\".\n            - Improve clarity and engagement by refining the structure.\n            - Address ethical concerns by ensuring fairness, balance, and transparency.\n\n            Content:\n            " ++
    content ++
    "\n\n            Feedback:\n            " ++
    feedback ++ "\n            "

/-- The scoring and feedback part of one loop iteration (`version1.py`
lines 141-149), factored out: the three `evaluate_content` calls, the
overall mean, and the feedback choice by attempt index `i`.  Returns the
recorded attempt and the advanced call counter. -/
def attemptOf (O : Oracle) (k0 : Nat) (i : Nat) (content : String) : Attempt × Nat :=
  let r := evaluate_content O k0 content "relevance to topic"
  let e := evaluate_content O r.2 content "clarity and engagement"
  let t := evaluate_content O e.2 content "ethical integrity"
  let overall_score := (r.1 + e.1 + t.1) / 3
  let fbk := if i < 2 then get_feedback O t.2 content else (final_marker, t.2)
  (⟨content, r.1, e.1, t.1, overall_score, fbk.1⟩, fbk.2)

/-- Result of one pass through the `while` body: either a `return` statement
ran, or control went back to the loop head with an updated state. -/
inductive StepRes where
  | done (out : LoopOutcome)
  | next (s : LoopState)
  deriving DecidableEq

/-- The generation prompt of the current iteration (`version1.py` lines
114-131): the refinement prompt on attempts `> 0`, the initial prompt on
attempt 0. -/
def promptOf (topic : String) (s : LoopState) : String :=
  if 0 < s.attempt then refinement_prompt topic s.content s.feedback
  else initial_prompt topic

/-- The attempt recorded by one productive iteration on `content`
(`version1.py` lines 140-149); the generation call already consumed call
index `s.calls`, so scoring starts at `s.calls + 1`. -/
def recordedAttempt (O : Oracle) (s : LoopState) (content : String) : Attempt :=
  (attemptOf O (s.calls + 1) s.attempt content).1

/-- The locals after one productive iteration on `content`: history
extended (line 140), best pair updated (lines 160-162), `content` and
`feedback` rebound, call counter advanced — `attempt` itself not yet
advanced (line 166 runs only when the quality `break` does not fire). -/
def recordedState (O : Oracle) (s : LoopState) (content : String) : LoopState :=
  ⟨s.attempt, s.history ++ [recordedAttempt O s content],
   (best_update (s.best_content, s.best_score) (recordedAttempt O s content)).1,
   (best_update (s.best_content, s.best_score) (recordedAttempt O s content)).2,
   content, (recordedAttempt O s content).feedback,
   (attemptOf O (s.calls + 1) s.attempt content).2⟩

/-- Tail of a productive iteration (`version1.py` lines 140-166): record
and score the attempt, update the best, then `break` out of the loop if the
overall score reaches 95 (the `return` of line 168 runs right after), else
advance `attempt` and go back to the loop head. -/
def recordStep (O : Oracle) (s : LoopState) (content : String) : StepRes :=
  if (recordedAttempt O s content).overall_score ≥ 95 then
    .done (.returned
      [PyVal.s (recordedState O s content).best_content,
       PyVal.n (recordedState O s content).best_score]
      (recordedState O s content) .quality_met)
  else
    .next { recordedState O s content with attempt := s.attempt + 1 }

/-- One pass through the body of `generate_high_quality_content`
(`version1.py` lines 112-166), including the guard check of line 112:
generate, bail out on empty content returning the 3-tuple `("", "", 0)`
(line 136), `continue` on repeated content without touching `attempt`
(line 139), otherwise score, record and decide.  The guard going false is
the normal return of line 168. -/
def loopStep (O : Oracle) (topic : String) (s : LoopState) : StepRes :=
  if s.attempt < max_attempts then
    if O s.calls (promptOf topic s) = "" then
      .done (.returned [PyVal.s "", PyVal.s "", PyVal.n 0]
        { s with content := O s.calls (promptOf topic s), calls := s.calls + 1 } .failed)
    else if O s.calls (promptOf topic s) ∈ past_attempts s then
      .next { s with content := O s.calls (promptOf topic s), calls := s.calls + 1 }
    else
      recordStep O s (O s.calls (promptOf topic s))
  else
    .done (.returned [PyVal.s s.best_content, PyVal.n s.best_score] s .budget_exhausted)

/-- The `while` loop of `generate_high_quality_content`, with fuel bounding
the number of iterations (the loop itself has no such bound: the stuck
branch can run forever, see the C1 theorem). -/
def loopAux (O : Oracle) (topic : String) : Nat → LoopState → LoopOutcome
  | 0, s => .out_of_fuel s
  | fuel + 1, s =>
    match loopStep O topic s with
    | .done out => out
    | .next s1 => loopAux O topic fuel s1

/-- The initial locals of `generate_high_quality_content`
(`version1.py` lines 106-111). -/
def initState : LoopState := ⟨0, [], "", 0, "", "", 0⟩

/-- Embedding of `generate_high_quality_content` (`version1.py` lines
105-168), run with the given fuel. -/
def generate_high_quality_content (O : Oracle) (topic : String) (fuel : Nat) : LoopOutcome :=
  loopAux O topic fuel initState

/-- The attempt history recorded so far (the `past_attempts` log enriched
with scores and feedback), readable off any outcome. -/
def LoopOutcome.history : LoopOutcome → List Attempt
  | .returned _ s _ => s.history
  | .out_of_fuel s => s.history

/-- The exit that fired, when a `return` was reached. -/
def LoopOutcome.reason? : LoopOutcome → Option StopReason
  | .returned _ _ r => some r
  | .out_of_fuel _ => none

/-- The returned tuple, when a `return` was reached. -/
def LoopOutcome.ret? : LoopOutcome → Option (List PyVal)
  | .returned r _ _ => some r
  | .out_of_fuel _ => none

/-- Whether a `return` was reached within the fuel. -/
def LoopOutcome.isReturned : LoopOutcome → Bool
  | .returned _ _ _ => true
  | .out_of_fuel _ => false

/-- The final loop state. -/
def LoopOutcome.finalState : LoopOutcome → LoopState
  | .returned _ s _ => s
  | .out_of_fuel s => s

/-- Tuple unpacking `a, b = tup` as in `main` (`version1.py` line 215):
succeeds exactly on a 2-tuple; `none` models the `ValueError` raised on any
other arity. -/
def unpack2 : List PyVal → Option (PyVal × PyVal)
  | [a, b] => some (a, b)
  | _ => none

/-- What `main` sees after
`high_quality_content, score = generate_high_quality_content(...)`. -/
def main_unpack (out : LoopOutcome) : Option (PyVal × PyVal) :=
  match out with
  | .returned ret _ _ => unpack2 ret
  | .out_of_fuel _ => none

/-- The best-so-far pair obtained by folding the code's update
(`version1.py` lines 160-162) over a history, from the initial
`best_content = ""`, `best_score = 0` of lines 108-109. -/
def bestFold (h : List Attempt) : String × ℚ :=
  h.foldl best_update ("", 0)

/-- Modelled from the spec: keep the earlier attempt unless a strictly
higher overall score appears (ties go to the earliest attempt). -/
def spec_step (b x : Attempt) : Attempt :=
  if x.overall_score > b.overall_score then x else b

/-- Modelled from the spec: the attempt with the highest overall score in
the history, earliest first on ties (`none` for an empty history). -/
def specBest : List Attempt → Option Attempt
  | [] => none
  | a :: t => some (t.foldl spec_step a)

/-- The per-dimension values of one attempt, in the fixed order the run
scores them. -/
def dimension_scores (a : Attempt) : List ℚ :=
  [a.relevance_score, a.engagement_score, a.ethics_score]

/-- The attempt recorded at index `i` of the run's history. -/
def nthAttempt (out : LoopOutcome) (i : Nat) : Attempt :=
  out.history.getD i default

/-- What the loop guarantees of an attempt recorded at index `i`: non-empty
content, dimension scores produced by consecutive `evaluate_content` calls
on that content, overall score the mean of the three, and the feedback rule
of `version1.py` lines 146-149. -/
def AttemptWF (O : Oracle) (i : Nat) (a : Attempt) : Prop :=
  a.content ≠ "" ∧
  a.overall_score = (a.relevance_score + a.engagement_score + a.ethics_score) / 3 ∧
  (2 ≤ i → a.feedback = final_marker) ∧
  ∃ k, a.relevance_score = (evaluate_content O k a.content "relevance to topic").1 ∧
    a.engagement_score = (evaluate_content O (k + 1) a.content "clarity and engagement").1 ∧
    a.ethics_score = (evaluate_content O (k + 2) a.content "ethical integrity").1 ∧
    (i < 2 → a.feedback = (get_feedback O (k + 3) a.content).1)

/-- Invariant of the loop head: the history is one entry per completed
attempt index, the budget is respected, the best pair is the fold of the
code's update over the history, every recorded attempt is well formed, and
every recorded attempt scored below the threshold (otherwise the loop would
already have returned). -/
def InvS (O : Oracle) (s : LoopState) : Prop :=
  s.history.length = s.attempt ∧
  s.attempt ≤ max_attempts ∧
  (s.best_content, s.best_score) = bestFold s.history ∧
  (∀ i, i < s.history.length → AttemptWF O i (s.history.getD i default)) ∧
  ∀ a ∈ s.history, a.overall_score < 95

/-- The part of the invariant that survives to any final state. -/
def InvC (O : Oracle) (s : LoopState) : Prop :=
  s.history.length ≤ max_attempts ∧
  (s.best_content, s.best_score) = bestFold s.history ∧
  ∀ i, i < s.history.length → AttemptWF O i (s.history.getD i default)

/-- What holds of any outcome of the loop started from a state satisfying
`InvS`: the final state is coherent, the returned tuple is the 3-tuple
`("", "", 0)` exactly on the failure exit and the pair
`(best_content, best_score)` otherwise, and unless the quality exit fired
every recorded attempt scored below the threshold. -/
def InvOut (O : Oracle) : LoopOutcome → Prop
  | .out_of_fuel s => InvC O s ∧ ∀ a ∈ s.history, a.overall_score < 95
  | .returned ret s reason =>
      InvC O s ∧
      (reason = .failed → ret = [PyVal.s "", PyVal.s "", PyVal.n 0]) ∧
      (reason ≠ .failed → ret = [PyVal.s s.best_content, PyVal.n s.best_score]) ∧
      (reason ≠ .quality_met → ∀ a ∈ s.history, a.overall_score < 95)

/-- An oracle that answers every call with the same non-empty text:
the repeating generator of claim C1. -/
def constOracle : Oracle := fun _ _ => "Hello"

/-- An oracle whose generation replies are empty: the total-failure
scenario of claim C2. -/
def emptyOracle : Oracle := fun _ _ => ""

/-- An oracle rating every dimension 0 and generating distinct content on
each call (the reply depends on the call index). -/
def zeroOracle : Oracle := fun k p =>
  if p.startsWith "Evaluate" then "0" else "Gen" ++ toString k

/-- An oracle rating every dimension 80 and generating distinct content on
each call. -/
def eightyOracle : Oracle := fun k p =>
  if p.startsWith "Evaluate" then "80" else "Gen" ++ toString k

/-- A deterministic oracle (the reply depends only on the prompt) rating
every dimension 96. -/
def det96 : Oracle := fun _ p =>
  if p.startsWith "Evaluate" then "96" else "Reply"

/-- An oracle whose rating replies are the out-of-range number 150. -/
def oracle150 : Oracle := fun _ _ => "150"

/-- An oracle whose rating replies are the non-numeric text "N/A". -/
def naOracle : Oracle := fun _ _ => "N/A"

/-- The state at the loop head after the first iteration against
`constOracle` (used to show the loop then repeats forever). -/
def firstState : LoopState :=
  match loopStep constOracle "Quantum Computing" initState with
  | .next s => s
  | .done _ => initState

theorem evaluate_content_snd (O : Oracle) (k : Nat) (content aspect : String) :
    (evaluate_content O k content aspect).2 = k + 1 := by
  simp only [evaluate_content]
  cases h : pyFloat (O k (eval_prompt aspect content)).trim <;> simp [h]

theorem best_update_snd_le (b : String × ℚ) (a : Attempt) : b.2 ≤ (best_update b a).2 := by
  unfold best_update
  split
  · exact le_of_lt (by assumption)
  · exact le_refl _

theorem overall_le_best_update (b : String × ℚ) (a : Attempt) :
    a.overall_score ≤ (best_update b a).2 := by
  unfold best_update
  split
  · exact le_refl _
  · exact le_of_not_lt (by assumption)

theorem foldl_best_update_le (h : List Attempt) :
    ∀ b : String × ℚ, b.2 ≤ (h.foldl best_update b).2 := by
  induction h with
  | nil => intro b; exact le_refl _
  | cons x t ih =>
    intro b
    exact le_trans (best_update_snd_le b x) (ih (best_update b x))

theorem mem_le_foldl_best_update (h : List Attempt) :
    ∀ b : String × ℚ, ∀ a ∈ h, a.overall_score ≤ (h.foldl best_update b).2 := by
  induction h with
  | nil => intro b a ha; exact absurd ha (List.not_mem_nil a)
  | cons x t ih =>
    intro b a ha
    rcases List.mem_cons.mp ha with rfl | ha
    · exact le_trans (overall_le_best_update b a) (foldl_best_update_le t _)
    · exact ih (best_update b x) a ha

theorem bestFold_append (h : List Attempt) (a : Attempt) :
    bestFold (h ++ [a]) = best_update (bestFold h) a := by
  unfold bestFold
  rw [List.foldl_append]
  rfl

theorem foldl_spec_pair (t : List Attempt) :
    ∀ m : Attempt,
      t.foldl best_update (m.content, m.overall_score) =
        ((t.foldl spec_step m).content, (t.foldl spec_step m).overall_score) := by
  induction t with
  | nil => intro m; rfl
  | cons x t ih =>
    intro m
    simp only [List.foldl_cons]
    by_cases hx : x.overall_score > m.overall_score
    · rw [show best_update (m.content, m.overall_score) x = (x.content, x.overall_score) from
          by simp [best_update, hx],
        show spec_step m x = x from by simp [spec_step, hx]]
      exact ih x
    · rw [show best_update (m.content, m.overall_score) x = (m.content, m.overall_score) from
          by simp [best_update, hx],
        show spec_step m x = m from by simp [spec_step, hx]]
      exact ih m

theorem foldl_spec_zero (t : List Attempt) :
    ∀ m : Attempt, m.overall_score ≤ 0 →
      0 < (t.foldl spec_step m).overall_score →
      t.foldl best_update (("", 0) : String × ℚ) =
        ((t.foldl spec_step m).content, (t.foldl spec_step m).overall_score) := by
  induction t with
  | nil =>
    intro m hm hp
    exact absurd (lt_of_le_of_lt hm hp) (lt_irrefl _)
  | cons x t ih =>
    intro m hm hp
    simp only [List.foldl_cons] at hp ⊢
    by_cases hx : x.overall_score > m.overall_score
    · rw [show spec_step m x = x from by simp [spec_step, hx]] at hp ⊢
      by_cases hx0 : 0 < x.overall_score
      · rw [show best_update ("", 0) x = (x.content, x.overall_score) from
            by simp [best_update, hx0]]
        exact foldl_spec_pair t x
      · rw [show best_update ("", 0) x = ("", 0) from by simp [best_update, hx0]]
        exact ih x (le_of_not_lt hx0) hp
    · rw [show spec_step m x = m from by simp [spec_step, hx]] at hp ⊢
      have hx0 : ¬ 0 < x.overall_score := fun h0 =>
        hx (lt_of_le_of_lt hm h0)
      rw [show best_update ("", 0) x = ("", 0) from by simp [best_update, hx0]]
      exact ih m hm hp

theorem bestFold_of_specBest (h : List Attempt) (m : Attempt)
    (hs : specBest h = some m) (hpos : 0 < m.overall_score) :
    bestFold h = (m.content, m.overall_score) := by
  cases h with
  | nil => exact absurd hs (by simp [specBest])
  | cons a t =>
    simp only [specBest, Option.some.injEq] at hs
    subst hs
    unfold bestFold
    simp only [List.foldl_cons]
    by_cases ha : 0 < a.overall_score
    · rw [show best_update ("", 0) a = (a.content, a.overall_score) from
          by simp [best_update, ha]]
      exact foldl_spec_pair t a
    · rw [show best_update ("", 0) a = ("", 0) from by simp [best_update, ha]]
      exact foldl_spec_zero t a (le_of_not_lt ha) hpos

theorem bestFold_all_zero :
    ∀ h : List Attempt, (∀ a ∈ h, a.overall_score = 0) → bestFold h = ("", 0) := by
  intro h
  induction h with
  | nil => intro _; rfl
  | cons x t ih =>
    intro hz
    unfold bestFold at ih ⊢
    simp only [List.foldl_cons]
    rw [show best_update ("", 0) x = ("", 0) from
        by simp [best_update, hz x (List.mem_cons_self x t)]]
    exact ih fun a ha => hz a (List.mem_cons_of_mem x ha)

theorem attemptOf_wf (O : Oracle) (k0 i : Nat) (content : String) (hc : content ≠ "") :
    AttemptWF O i (attemptOf O k0 i content).1 := by
  unfold AttemptWF
  refine ⟨hc, rfl, ?_, k0, rfl, ?_, ?_, ?_⟩
  · intro h2
    show (if i < 2 then get_feedback O _ content else (final_marker, _)).1 = final_marker
    rw [if_neg (show ¬ i < 2 by omega)]
  · simp only [attemptOf, evaluate_content_snd]
  · simp only [attemptOf, evaluate_content_snd]
  · intro h2
    show (if i < 2 then get_feedback O _ content else (final_marker, _)).1 = _
    rw [if_pos h2]
    simp only [evaluate_content_snd]
    rfl

theorem recordedState_best (O : Oracle) (s : LoopState) (content : String)
    (hbest : (s.best_content, s.best_score) = bestFold s.history) :
    ((recordedState O s content).best_content, (recordedState O s content).best_score) =
      bestFold (s.history ++ [recordedAttempt O s content]) := by
  rw [bestFold_append, ← hbest]
  rfl

theorem history_wf_append (O : Oracle) (s : LoopState) (content : String)
    (hlen : s.history.length = s.attempt)
    (hwf : ∀ i, i < s.history.length → AttemptWF O i (s.history.getD i default))
    (hc : content ≠ "") :
    ∀ i, i < (s.history ++ [recordedAttempt O s content]).length →
      AttemptWF O i ((s.history ++ [recordedAttempt O s content]).getD i default) := by
  intro i hi
  rcases lt_or_ge i s.history.length with hlt | hge
  · rw [List.getD_append _ _ _ _ hlt]
    exact hwf i hlt
  · have hieq : i = s.history.length := by
      simp only [List.length_append, List.length_singleton] at hi
      omega
    subst hieq
    rw [List.getD_append_right _ _ _ _ (le_refl _), Nat.sub_self]
    show AttemptWF O s.history.length (recordedAttempt O s content)
    rw [hlen]
    exact attemptOf_wf O (s.calls + 1) s.attempt content hc

theorem recordStep_preserves (O : Oracle) (s : LoopState) (content : String)
    (h : InvS O s) (hg : s.attempt < max_attempts) (hc : content ≠ "") :
    (∀ s1, recordStep O s content = .next s1 → InvS O s1) ∧
    (∀ out, recordStep O s content = .done out → InvOut O out) := by
  obtain ⟨hlen, hcap, hbest, hwf, h95⟩ := h
  have hwf1 := history_wf_append O s content hlen hwf hc
  have hbest1 := recordedState_best O s content hbest
  have hlen1 : (s.history ++ [recordedAttempt O s content]).length = s.attempt + 1 := by
    simp [hlen]
  by_cases hq : (recordedAttempt O s content).overall_score ≥ 95
  · rw [recordStep, if_pos hq]
    constructor
    · intro s1 h1
      exact StepRes.noConfusion h1
    · intro out hout
      injection hout with hout
      subst hout
      refine ⟨⟨?_, hbest1, hwf1⟩, ?_, ?_, ?_⟩
      · show (s.history ++ [recordedAttempt O s content]).length ≤ max_attempts
        rw [hlen1]
        exact hg
      · intro hf
        exact StopReason.noConfusion hf
      · intro _
        rfl
      · intro hq2
        exact absurd rfl hq2
  · rw [recordStep, if_neg hq]
    constructor
    · intro s1 h1
      injection h1 with h1
      subst h1
      refine ⟨hlen1, hg, hbest1, hwf1, ?_⟩
      intro a ha
      rcases List.mem_append.mp ha with ha | ha
      · exact h95 a ha
      · rw [List.mem_singleton] at ha
        subst ha
        exact lt_of_not_ge hq
    · intro out hout
      exact StepRes.noConfusion hout

theorem loopStep_preserves (O : Oracle) (topic : String) (s : LoopState) (h : InvS O s) :
    (∀ s1, loopStep O topic s = .next s1 → InvS O s1) ∧
    (∀ out, loopStep O topic s = .done out → InvOut O out) := by
  by_cases hg : s.attempt < max_attempts
  · rw [loopStep, if_pos hg]
    by_cases hce : O s.calls (promptOf topic s) = ""
    · rw [if_pos hce]
      obtain ⟨hlen, hcap, hbest, hwf, h95⟩ := h
      constructor
      · intro s1 h1
        exact StepRes.noConfusion h1
      · intro out hout
        injection hout with hout
        subst hout
        refine ⟨⟨?_, hbest, hwf⟩, ?_, ?_, ?_⟩
        · show s.history.length ≤ max_attempts
          rw [hlen]
          exact hcap
        · intro _
          rfl
        · intro hf
          exact absurd rfl hf
        · intro _
          exact h95
    · rw [if_neg hce]
      by_cases hmem : O s.calls (promptOf topic s) ∈ past_attempts s
      · rw [if_pos hmem]
        constructor
        · intro s1 h1
          injection h1 with h1
          subst h1
          exact h
        · intro out hout
          exact StepRes.noConfusion hout
      · rw [if_neg hmem]
        exact recordStep_preserves O s _ h hg hce
  · rw [loopStep, if_neg hg]
    obtain ⟨hlen, hcap, hbest, hwf, h95⟩ := h
    constructor
    · intro s1 h1
      exact StepRes.noConfusion h1
    · intro out hout
      injection hout with hout
      subst hout
      refine ⟨⟨?_, hbest, hwf⟩, ?_, ?_, ?_⟩
      · show s.history.length ≤ max_attempts
        rw [hlen]
        exact hcap
      · intro hf
        exact StopReason.noConfusion hf
      · intro _
        rfl
      · intro _
        exact h95

theorem loopAux_master (O : Oracle) (topic : String) :
    ∀ fuel s, InvS O s → InvOut O (loopAux O topic fuel s) := by
  intro fuel
  induction fuel with
  | zero =>
    intro s h
    obtain ⟨hlen, hcap, hbest, hwf, h95⟩ := h
    exact ⟨⟨by rw [hlen]; exact hcap, hbest, hwf⟩, h95⟩
  | succ n ih =>
    intro s h
    have hp := loopStep_preserves O topic s h
    cases hstep : loopStep O topic s with
    | done out =>
      rw [loopAux, hstep]
      exact hp.2 out hstep
    | next s1 =>
      rw [loopAux, hstep]
      exact ih s1 (hp.1 s1 hstep)

theorem initState_inv (O : Oracle) : InvS O initState := by
  refine ⟨rfl, Nat.zero_le _, rfl, ?_, ?_⟩
  · intro i hi
    exact absurd hi (Nat.not_lt_zero i)
  · intro a ha
    exact absurd ha (List.not_mem_nil a)

theorem master_run (O : Oracle) (topic : String) (fuel : Nat) :
    InvOut O (generate_high_quality_content O topic fuel) :=
  loopAux_master O topic fuel initState (initState_inv O)

theorem run_wf (O : Oracle) (topic : String) (fuel : Nat) (i : Nat)
    (hi : i < (generate_high_quality_content O topic fuel).history.length) :
    AttemptWF O i (nthAttempt (generate_high_quality_content O topic fuel) i) := by
  have hmr := master_run O topic fuel
  cases hout : generate_high_quality_content O topic fuel with
  | out_of_fuel s =>
    rw [hout] at hi hmr
    exact hmr.1.2.2 i hi
  | returned ret s reason =>
    rw [hout] at hi hmr
    exact hmr.1.2.2 i hi

theorem stuck_no_return (O : Oracle) (topic c : String)
    (hO : ∀ k p, O k p = c) (hc : ¬ c = "") :
    ∀ fuel s, s.attempt < max_attempts → c ∈ past_attempts s →
      (loopAux O topic fuel s).isReturned = false := by
  intro fuel
  induction fuel with
  | zero =>
    intro s _ _
    rfl
  | succ n ih =>
    intro s hs hmem
    have hstep : loopStep O topic s = .next { s with content := c, calls := s.calls + 1 } := by
      rw [loopStep, if_pos hs, hO, if_neg hc, if_pos hmem]
    rw [loopAux, hstep]
    exact ih _ hs hmem

set_option maxRecDepth 100000 in
/-- C1: the claim says a repeated (stuck) generation advances a safety
counter so the loop still terminates, at or before attempt N+1, even
against an oracle returning the same content on every call.  The code does
the opposite: the stuck branch (`version1.py` line 139) runs `continue`
without incrementing `attempt` or any counter, so against an oracle that
always replies the same non-empty text the loop never returns, whatever
iteration budget it is given. -/
theorem C1_repeating_oracle_never_returns :
    ∀ fuel, (generate_high_quality_content constOracle "Quantum Computing" fuel).isReturned
      = false := by
  intro fuel
  cases fuel with
  | zero => rfl
  | succ n =>
    have h1 : loopStep constOracle "Quantum Computing" initState = StepRes.next firstState := by
      with_unfolding_all decide
    rw [generate_high_quality_content, loopAux, h1]
    exact stuck_no_return constOracle "Quantum Computing" "Hello" (fun _ _ => rfl)
      (by decide) n firstState (by with_unfolding_all decide)
      (by with_unfolding_all decide)

set_option maxRecDepth 100000 in
/-- C2: when the oracle yields no content, the loop does return rather than
raise — but it returns the 3-tuple `("", "", 0)` (`version1.py` line 136)
while the normal exit returns 2 values, so the 2-variable unpacking in
`main` (line 215) raises `ValueError` (modelled by `none`): the caller
cannot render the failed-run state. -/
theorem C2_failure_returns_three_tuple :
    (generate_high_quality_content emptyOracle "Quantum Computing" 1).ret? =
      some [PyVal.s "", PyVal.s "", PyVal.n 0] ∧
    (generate_high_quality_content emptyOracle "Quantum Computing" 1).reason? =
      some StopReason.failed ∧
    main_unpack (generate_high_quality_content emptyOracle "Quantum Computing" 1) = none := by
  with_unfolding_all decide

set_option maxRecDepth 100000 in
/-- C3 counterexample: a run (distinct contents, every rating 0) in which
all three recorded attempts score 0: the loop returns content `""` and
score 0, but every recorded attempt — in particular the earliest
maximum-score one, which `specBest` identifies as attempt 0 — has non-empty
content, so the returned content is not that of the best attempt. -/
theorem C3_counterexample :
    (generate_high_quality_content zeroOracle "Quantum Computing" 4).reason? =
      some StopReason.budget_exhausted ∧
    specBest (generate_high_quality_content zeroOracle "Quantum Computing" 4).history =
      some (nthAttempt (generate_high_quality_content zeroOracle "Quantum Computing" 4) 0) ∧
    (generate_high_quality_content zeroOracle "Quantum Computing" 4).ret? =
      some [PyVal.s "", PyVal.n 0] ∧
    ∀ a ∈ (generate_high_quality_content zeroOracle "Quantum Computing" 4).history,
      a.content ≠ "" := by
  with_unfolding_all decide

/-- C3 (amended): for every run that exits by the quality or the budget
stop and whose best (earliest maximum) attempt has a strictly positive
overall score, the returned pair is exactly that attempt's content and
score, and that score bounds every overall score in the history (so the
tracked best never falls below a seen score). -/
theorem C3_best_is_earliest_max (O : Oracle) (topic : String) (fuel : Nat) (m : Attempt)
    (hret : (generate_high_quality_content O topic fuel).reason? = some StopReason.quality_met ∨
      (generate_high_quality_content O topic fuel).reason? = some StopReason.budget_exhausted)
    (hm : specBest (generate_high_quality_content O topic fuel).history = some m)
    (hpos : 0 < m.overall_score) :
    (generate_high_quality_content O topic fuel).ret? =
      some [PyVal.s m.content, PyVal.n m.overall_score] ∧
    ∀ a ∈ (generate_high_quality_content O topic fuel).history,
      a.overall_score ≤ m.overall_score := by
  have hmr := master_run O topic fuel
  cases hout : generate_high_quality_content O topic fuel with
  | out_of_fuel s =>
    rw [hout] at hret
    rcases hret with hret | hret <;> simp [LoopOutcome.reason?] at hret
  | returned ret s reason =>
    rw [hout] at hret hm hmr
    have hfail : reason ≠ StopReason.failed := by
      rcases hret with hret | hret <;>
        · simp only [LoopOutcome.reason?, Option.some.injEq] at hret
          subst hret
          decide
    have hret2 := hmr.2.2.1 hfail
    have hbf := hmr.1.2.1
    have hbm := bestFold_of_specBest s.history m hm hpos
    have hpair := hbf.trans hbm
    have h1 : s.best_content = m.content := congrArg Prod.fst hpair
    have h2 : s.best_score = m.overall_score := congrArg Prod.snd hpair
    constructor
    · simp only [LoopOutcome.ret?]
      rw [hret2, h1, h2]
    · intro a ha
      have h3 := mem_le_foldl_best_update s.history ("", 0) a ha
      have h4 : (List.foldl best_update ("", 0) s.history).2 = m.overall_score := by
        rw [show List.foldl best_update ("", 0) s.history = bestFold s.history from rfl, hbm]
      rw [h4] at h3
      exact h3

set_option maxRecDepth 100000 in
/-- C3 witness: a run with distinct contents all scoring 80 exhausts the
budget and returns attempt 0's content and score (earliest of the tied
maxima), which bounds every score in the history. -/
theorem C3_witness :
    (generate_high_quality_content eightyOracle "Quantum Computing" 4).ret? =
      some [PyVal.s (nthAttempt (generate_high_quality_content eightyOracle
          "Quantum Computing" 4) 0).content,
        PyVal.n (nthAttempt (generate_high_quality_content eightyOracle
          "Quantum Computing" 4) 0).overall_score] ∧
    ∀ a ∈ (generate_high_quality_content eightyOracle "Quantum Computing" 4).history,
      a.overall_score ≤ (nthAttempt (generate_high_quality_content eightyOracle
        "Quantum Computing" 4) 0).overall_score :=
  C3_best_is_earliest_max eightyOracle "Quantum Computing" 4
    (nthAttempt (generate_high_quality_content eightyOracle "Quantum Computing" 4) 0)
    (Or.inr (by with_unfolding_all decide)) (by with_unfolding_all decide)
    (by with_unfolding_all decide)

set_option maxRecDepth 100000 in
/-- C4 counterexample: the claim says an out-of-range rating response is
replaced by the neutral default 50.0 and every per-dimension value lies in
[0,100].  But `evaluate_content` (`version1.py` lines 71-74) only catches
`ValueError`: a parseable out-of-range reply such as "150" is returned
as-is — 150, not 50, and not within [0,100]. -/
theorem C4_counterexample :
    (evaluate_content oracle150 0 "body" "relevance to topic").1 = 150 ∧
    ¬ (evaluate_content oracle150 0 "body" "relevance to topic").1 ≤ 100 ∧
    (evaluate_content oracle150 0 "body" "relevance to topic").1 ≠ 50 := by
  with_unfolding_all decide

/-- C4 (amended): the scorer never raises; a non-numeric rating reply is
replaced by 50.0 and a parseable reply is used as-is, with no range check —
so the per-dimension value lies in [0,100] exactly when the oracle's
parseable replies do (hypothesis `h`). -/
theorem C4_default_only_for_unparsable (O : Oracle) (k : Nat) (content aspect : String)
    (h : ∀ v : ℚ, pyFloat ((O k (eval_prompt aspect content)).trim) = some v →
      0 ≤ v ∧ v ≤ 100) :
    (pyFloat ((O k (eval_prompt aspect content)).trim) = none →
      (evaluate_content O k content aspect).1 = 50) ∧
    (∀ v : ℚ, pyFloat ((O k (eval_prompt aspect content)).trim) = some v →
      (evaluate_content O k content aspect).1 = v) ∧
    0 ≤ (evaluate_content O k content aspect).1 ∧
    (evaluate_content O k content aspect).1 ≤ 100 := by
  cases hp : pyFloat ((O k (eval_prompt aspect content)).trim) with
  | none =>
    have hv : (evaluate_content O k content aspect).1 = 50 := by
      simp [evaluate_content, hp]
    refine ⟨fun _ => hv, ?_, ?_, ?_⟩
    · intro v hv2
      exact Option.noConfusion hv2
    · rw [hv]
      norm_num
    · rw [hv]
      norm_num
  | some v =>
    have hv : (evaluate_content O k content aspect).1 = v := by
      simp [evaluate_content, hp]
    obtain ⟨h0, h100⟩ := h v hp
    refine ⟨?_, ?_, ?_, ?_⟩
    · intro hn
      exact Option.noConfusion hn
    · intro w hw
      injection hw with hw
      rw [hv, hw]
    · rw [hv]
      exact h0
    · rw [hv]
      exact h100

/-- C4 witness: the non-numeric rating reply "N/A" parses to nothing, so
the dimension value is the neutral default 50, which lies in [0,100]. -/
theorem C4_witness :
    (pyFloat ((naOracle 0 (eval_prompt "relevance to topic" "body")).trim) = none →
      (evaluate_content naOracle 0 "body" "relevance to topic").1 = 50) ∧
    (∀ v : ℚ, pyFloat ((naOracle 0 (eval_prompt "relevance to topic" "body")).trim) = some v →
      (evaluate_content naOracle 0 "body" "relevance to topic").1 = v) ∧
    0 ≤ (evaluate_content naOracle 0 "body" "relevance to topic").1 ∧
    (evaluate_content naOracle 0 "body" "relevance to topic").1 ≤ 100 :=
  C4_default_only_for_unparsable naOracle 0 "body" "relevance to topic" (by
    intro v hv
    rw [show pyFloat ((naOracle 0 (eval_prompt "relevance to topic" "body")).trim) = none from
      by with_unfolding_all decide] at hv
    exact Option.noConfusion hv)

/-- C5: whenever some recorded attempt reaches the quality threshold 95,
the loop's exit is the quality `break` of `version1.py` lines 163-164 —
never the budget exit — because the quality check runs before `attempt` is
advanced towards the `while` guard.  In particular an attempt at the last
allowed index with score at or above the threshold stops the run as
`quality_met`, not `budget_exhausted`. -/
theorem C5_quality_checked_before_budget (O : Oracle) (topic : String) (fuel : Nat)
    (h : ∃ a ∈ (generate_high_quality_content O topic fuel).history, 95 ≤ a.overall_score) :
    (generate_high_quality_content O topic fuel).reason? = some StopReason.quality_met := by
  have hmr := master_run O topic fuel
  obtain ⟨a, ha, ha95⟩ := h
  cases hout : generate_high_quality_content O topic fuel with
  | out_of_fuel s =>
    rw [hout] at ha hmr
    exact absurd ha95 (not_le.mpr (hmr.2 a ha))
  | returned ret s reason =>
    rw [hout] at ha hmr
    by_cases hr : reason = StopReason.quality_met
    · simp only [LoopOutcome.reason?]
      rw [hr]
    · exact absurd ha95 (not_le.mpr (hmr.2.2.2 hr a ha))

set_option maxRecDepth 100000 in
/-- C5 witness: with every rating 96, attempt 0 reaches the threshold and
the run stops as `quality_met`. -/
theorem C5_witness :
    (generate_high_quality_content det96 "Quantum Computing" 1).reason? =
      some StopReason.quality_met :=
  C5_quality_checked_before_budget det96 "Quantum Computing" 1 (by with_unfolding_all decide)

/-- C6: every recorded attempt's overall score is the unweighted arithmetic
mean of exactly its three per-dimension values (relevance, clarity and
engagement, ethics), the full dimension set of the run, as computed after
any 50.0 defaulting inside `evaluate_content` — never a partial average. -/
theorem C6_overall_is_mean_of_all_dimensions (O : Oracle) (topic : String) (fuel : Nat)
    (a : Attempt) (ha : a ∈ (generate_high_quality_content O topic fuel).history) :
    (dimension_scores a).length = 3 ∧
    a.overall_score = (dimension_scores a).sum / ((dimension_scores a).length : ℚ) := by
  obtain ⟨i, hi, hget⟩ := List.getElem_of_mem ha
  have hwf := run_wf O topic fuel i hi
  have hna : nthAttempt (generate_high_quality_content O topic fuel) i = a := by
    rw [nthAttempt, List.getD_eq_getElem _ _ hi, hget]
  rw [hna] at hwf
  obtain ⟨-, hmean, -, -⟩ := hwf
  refine ⟨rfl, ?_⟩
  rw [hmean]
  simp only [dimension_scores, List.sum_cons, List.sum_nil, List.length_cons, List.length_nil,
    add_zero]
  norm_num
  ring

set_option maxRecDepth 100000 in
/-- C6 witness: the single attempt of a threshold-meeting run has exactly
three dimension values and its overall score is their mean. -/
theorem C6_witness :
    (dimension_scores (nthAttempt (generate_high_quality_content det96
      "Quantum Computing" 1) 0)).length = 3 ∧
    (nthAttempt (generate_high_quality_content det96 "Quantum Computing" 1) 0).overall_score =
      (dimension_scores (nthAttempt (generate_high_quality_content det96
        "Quantum Computing" 1) 0)).sum /
      ((dimension_scores (nthAttempt (generate_high_quality_content det96
        "Quantum Computing" 1) 0)).length : ℚ) :=
  C6_overall_is_mean_of_all_dimensions det96 "Quantum Computing" 1
    (nthAttempt (generate_high_quality_content det96 "Quantum Computing" 1) 0)
    (by with_unfolding_all decide)

/-- C7: the attempt history never grows beyond `max_attempts = 3` — the
loop never produces more recorded attempts than the budget allows, for any
oracle, topic and iteration fuel. -/
theorem C7_history_never_exceeds_budget (O : Oracle) (topic : String) (fuel : Nat) :
    (generate_high_quality_content O topic fuel).history.length ≤ max_attempts := by
  have hmr := master_run O topic fuel
  cases hout : generate_high_quality_content O topic fuel with
  | out_of_fuel s =>
    rw [hout] at hmr
    exact hmr.1.1
  | returned ret s reason =>
    rw [hout] at hmr
    exact hmr.1.1

/-- C8: an attempt recorded at index ≥ 2 (the final permitted attempt under
the budget of 3) carries the fixed marker text instead of a built report,
while an attempt at index 0 or 1 carries a report built by `get_feedback`
on its content (`version1.py` lines 146-149). -/
theorem C8_final_attempt_fixed_marker (O : Oracle) (topic : String) (fuel : Nat) (i : Nat)
    (hi : i < (generate_high_quality_content O topic fuel).history.length) :
    (2 ≤ i →
      (nthAttempt (generate_high_quality_content O topic fuel) i).feedback = final_marker) ∧
    (i < 2 → ∃ k,
      (nthAttempt (generate_high_quality_content O topic fuel) i).feedback =
        (get_feedback O k (nthAttempt (generate_high_quality_content O topic fuel) i).content).1) := by
  obtain ⟨-, -, hmark, k, -, -, -, hfb⟩ := run_wf O topic fuel i hi
  exact ⟨hmark, fun h2 => ⟨k + 3, hfb h2⟩⟩

set_option maxRecDepth 100000 in
/-- C8 witness: in a 3-attempt run, the attempt at index 2 carries the
fixed final-version marker. -/
theorem C8_witness :
    (2 ≤ 2 →
      (nthAttempt (generate_high_quality_content eightyOracle "Quantum Computing" 4) 2).feedback =
        final_marker) ∧
    (2 < 2 → ∃ k,
      (nthAttempt (generate_high_quality_content eightyOracle "Quantum Computing" 4) 2).feedback =
        (get_feedback eightyOracle k
          (nthAttempt (generate_high_quality_content eightyOracle
            "Quantum Computing" 4) 2).content).1) :=
  C8_final_attempt_fixed_marker eightyOracle "Quantum Computing" 4 2
    (by with_unfolding_all decide)

theorem evaluate_content_det (O : Oracle) (hdet : ∀ i j p, O i p = O j p)
    (k : Nat) (content aspect : String) :
    (evaluate_content O k content aspect).1 = (evaluate_content O 0 content aspect).1 := by
  simp only [evaluate_content]
  rw [hdet k 0]
  cases pyFloat ((O 0 (eval_prompt aspect content)).trim) <;> rfl

theorem get_feedback_det (O : Oracle) (hdet : ∀ i j p, O i p = O j p) (k : Nat)
    (content : String) :
    (get_feedback O k content).1 =
      evaluation_table (evaluate_content O 0 content "relevance to topic").1
        (evaluate_content O 0 content "clarity and engagement").1
        (evaluate_content O 0 content "ethical integrity").1
        (((evaluate_content O 0 content "relevance to topic").1 +
            (evaluate_content O 0 content "clarity and engagement").1 +
            (evaluate_content O 0 content "ethical integrity").1) / 3)
        (O 0 (seo_prompt content)) (O 0 (ethics_prompt content)) := by
  simp only [get_feedback, evaluate_content_snd]
  rw [evaluate_content_det O hdet k content "relevance to topic",
    evaluate_content_det O hdet (k + 1) content "clarity and engagement",
    evaluate_content_det O hdet (k + 1 + 1) content "ethical integrity",
    hdet (k + 1 + 1 + 1) 0 (seo_prompt content),
    hdet (k + 1 + 1 + 1 + 1) 0 (ethics_prompt content)]

theorem evaluation_table_contains_seo (r e t o : ℚ) (seo eth : String) :
    ∃ p q, evaluation_table r e t o seo eth = p ++ seo ++ q := by
  refine ⟨"\n    **Evaluation Scores:**\n\n    | Evaluation Criteria        | Score  | Explanation                                   |\n    |-------------------------|--------|-------------|  \n    | **Relevance to Topic**   | " ++
    ratStr r ++
    "%  | Alignment with the given topic or prompt. |  \n    | **Clarity & Engagement** | " ++
    ratStr e ++
    "%  | Audience engagement and clarity. |  \n    | **Ethical Considerations** | " ++
    ratStr t ++
    "%  | Compliance with fairness and transparency. |  \n    | **Overall Content Quality** | " ++
    ratStr o ++
    "%  | Composite assessment of structure and effectiveness. |\n\n    **SEO Recommendations:**\n    ",
    "\n\n    **Ethical Review Comments:**\n    " ++ eth ++ "\n    ", ?_⟩
  simp only [evaluation_table, String.append_assoc]

theorem evaluation_table_contains_ethics (r e t o : ℚ) (seo eth : String) :
    ∃ p q, evaluation_table r e t o seo eth = p ++ eth ++ q := by
  refine ⟨"\n    **Evaluation Scores:**\n\n    | Evaluation Criteria        | Score  | Explanation                                   |\n    |-------------------------|--------|-------------|  \n    | **Relevance to Topic**   | " ++
    ratStr r ++
    "%  | Alignment with the given topic or prompt. |  \n    | **Clarity & Engagement** | " ++
    ratStr e ++
    "%  | Audience engagement and clarity. |  \n    | **Ethical Considerations** | " ++
    ratStr t ++
    "%  | Compliance with fairness and transparency. |  \n    | **Overall Content Quality** | " ++
    ratStr o ++
    "%  | Composite assessment of structure and effectiveness. |\n\n    **SEO Recommendations:**\n    " ++
    seo ++
    "\n\n    **Ethical Review Comments:**\n    ",
    "\n    ", ?_⟩
  simp only [evaluation_table, String.append_assoc]

/-- C9: for attempts that get a real report (index 0 or 1), under a
deterministic oracle the stored report is exactly the aggregated
`evaluation_table` built from that attempt's own dimension scores and
overall score (the same scores the stopping decision used), and each
critique role's reply appears in it verbatim as a contiguous substring. -/
theorem C9_report_structure (O : Oracle) (topic : String) (fuel : Nat)
    (hdet : ∀ i j p, O i p = O j p) (i : Nat)
    (hi : i < (generate_high_quality_content O topic fuel).history.length)
    (hi2 : i < 2) :
    (nthAttempt (generate_high_quality_content O topic fuel) i).feedback =
      evaluation_table
        (nthAttempt (generate_high_quality_content O topic fuel) i).relevance_score
        (nthAttempt (generate_high_quality_content O topic fuel) i).engagement_score
        (nthAttempt (generate_high_quality_content O topic fuel) i).ethics_score
        (nthAttempt (generate_high_quality_content O topic fuel) i).overall_score
        (O 0 (seo_prompt (nthAttempt (generate_high_quality_content O topic fuel) i).content))
        (O 0 (ethics_prompt (nthAttempt (generate_high_quality_content O topic fuel) i).content)) ∧
    (∃ p q, (nthAttempt (generate_high_quality_content O topic fuel) i).feedback =
      p ++ O 0 (seo_prompt (nthAttempt (generate_high_quality_content O topic fuel) i).content)
        ++ q) ∧
    (∃ p q, (nthAttempt (generate_high_quality_content O topic fuel) i).feedback =
      p ++ O 0 (ethics_prompt (nthAttempt (generate_high_quality_content O topic fuel) i).content)
        ++ q) := by
  have hwf := run_wf O topic fuel i hi
  set a := nthAttempt (generate_high_quality_content O topic fuel) i with hadef
  obtain ⟨-, hmean, -, k, hr, he, ht, hfb⟩ := hwf
  have hfb2 := hfb hi2
  rw [get_feedback_det O hdet (k + 3)] at hfb2
  have hr0 : (evaluate_content O 0 a.content "relevance to topic").1 = a.relevance_score := by
    rw [hr, evaluate_content_det O hdet k]
  have he0 : (evaluate_content O 0 a.content "clarity and engagement").1 =
      a.engagement_score := by
    rw [he, evaluate_content_det O hdet (k + 1)]
  have ht0 : (evaluate_content O 0 a.content "ethical integrity").1 = a.ethics_score := by
    rw [ht, evaluate_content_det O hdet (k + 2)]
  rw [hr0, he0, ht0, ← hmean] at hfb2
  refine ⟨hfb2, ?_, ?_⟩
  · rw [hfb2]
    exact evaluation_table_contains_seo _ _ _ _ _ _
  · rw [hfb2]
    exact evaluation_table_contains_ethics _ _ _ _ _ _

set_option maxRecDepth 100000 in
/-- C9 witness: in a run against a deterministic oracle rating 96, the
attempt at index 0 stores exactly the aggregated table of its own scores,
with both critique replies embedded verbatim. -/
theorem C9_witness :
    (nthAttempt (generate_high_quality_content det96 "Quantum Computing" 1) 0).feedback =
      evaluation_table
        (nthAttempt (generate_high_quality_content det96 "Quantum Computing" 1) 0).relevance_score
        (nthAttempt (generate_high_quality_content det96 "Quantum Computing" 1) 0).engagement_score
        (nthAttempt (generate_high_quality_content det96 "Quantum Computing" 1) 0).ethics_score
        (nthAttempt (generate_high_quality_content det96 "Quantum Computing" 1) 0).overall_score
        (det96 0 (seo_prompt (nthAttempt (generate_high_quality_content det96
          "Quantum Computing" 1) 0).content))
        (det96 0 (ethics_prompt (nthAttempt (generate_high_quality_content det96
          "Quantum Computing" 1) 0).content)) ∧
    (∃ p q, (nthAttempt (generate_high_quality_content det96 "Quantum Computing" 1) 0).feedback =
      p ++ det96 0 (seo_prompt (nthAttempt (generate_high_quality_content det96
        "Quantum Computing" 1) 0).content) ++ q) ∧
    (∃ p q, (nthAttempt (generate_high_quality_content det96 "Quantum Computing" 1) 0).feedback =
      p ++ det96 0 (ethics_prompt (nthAttempt (generate_high_quality_content det96
        "Quantum Computing" 1) 0).content) ++ q) :=
  C9_report_structure det96 "Quantum Computing" 1 (fun _ _ _ => rfl) 0
    (by with_unfolding_all decide) (by decide)

/-- C10: in a run that exits normally (quality or budget) with every
recorded attempt scoring 0, the best pair keeps its initial value, so the
loop returns content `""` and score 0, while every recorded attempt has
non-empty content (empty content triggers the failure exit instead) — the
returned content is therefore not the content of any recorded attempt. -/
theorem C10_all_zero_scores_return_empty (O : Oracle) (topic : String) (fuel : Nat)
    (hret : (generate_high_quality_content O topic fuel).reason? = some StopReason.quality_met ∨
      (generate_high_quality_content O topic fuel).reason? = some StopReason.budget_exhausted)
    (hz : ∀ a ∈ (generate_high_quality_content O topic fuel).history, a.overall_score = 0) :
    (generate_high_quality_content O topic fuel).ret? = some [PyVal.s "", PyVal.n 0] ∧
    ∀ a ∈ (generate_high_quality_content O topic fuel).history, a.content ≠ "" := by
  have hmr := master_run O topic fuel
  cases hout : generate_high_quality_content O topic fuel with
  | out_of_fuel s =>
    rw [hout] at hret
    rcases hret with hret | hret <;> simp [LoopOutcome.reason?] at hret
  | returned ret s reason =>
    rw [hout] at hret hz hmr
    have hfail : reason ≠ StopReason.failed := by
      rcases hret with hret | hret <;>
        · simp only [LoopOutcome.reason?, Option.some.injEq] at hret
          subst hret
          decide
    have hret2 := hmr.2.2.1 hfail
    have hbf := hmr.1.2.1
    have hz0 : bestFold s.history = ("", 0) :=
      bestFold_all_zero s.history (fun a ha => hz a ha)
    have hpair := hbf.trans hz0
    have h1 : s.best_content = "" := congrArg Prod.fst hpair
    have h2 : s.best_score = 0 := congrArg Prod.snd hpair
    constructor
    · simp only [LoopOutcome.ret?]
      rw [hret2, h1, h2]
    · intro a ha
      simp only [LoopOutcome.history] at ha
      obtain ⟨j, hj, hget⟩ := List.getElem_of_mem ha
      have hwf := hmr.1.2.2 j hj
      rw [List.getD_eq_getElem _ _ hj, hget] at hwf
      exact hwf.1

set_option maxRecDepth 100000 in
/-- C10 witness: the all-zero three-attempt run returns `("", 0)` and every
one of its recorded attempts has non-empty content. -/
theorem C10_witness :
    (generate_high_quality_content zeroOracle "Quantum Computing" 4).ret? =
      some [PyVal.s "", PyVal.n 0] ∧
    ∀ a ∈ (generate_high_quality_content zeroOracle "Quantum Computing" 4).history,
      a.content ≠ "" :=
  C10_all_zero_scores_return_empty zeroOracle "Quantum Computing" 4
    (Or.inr (by with_unfolding_all decide)) (by with_unfolding_all decide)

end ContentGen
